import Mathlib

/-!
Formal model of the Parrot chat bot, embedded from the Python sources:
the per-guild tag store (src/cogs/utils/method.py), the base64 encode and
decode commands and the animal fact command (src/cogs/fun/init),
the telephone dial relay (src/cogs/fun/init), and the multi-event
wait helper (src/core/Context.py).  Database collections are modelled as
lists of documents; the Mongo operations find_one, insert_one, delete_one
and update_one act on the first matching document, as Mongo does.
-/

namespace Parrot

/-! ## Tag store (src/cogs/utils/method.py) -/

/-- A document of a guild tag collection, with the exact fields inserted by
the tag creation handler: id, text, count, owner, nsfw, created_at. -/
structure TagDoc where
  id : String
  text : String
  count : Nat
  owner : Nat
  nsfw : Bool
  created_at : Nat
deriving DecidableEq

/-- A value compared against the string id field by a Mongo filter.  The
handlers normally pass the tag name (a string); the tag deletion handler
instead passes the module-level dictionary of collections named tags
(source line 66: delete_one with filter id equal to tags), an object that
no string id ever equals. -/
inductive IdFilter where
  | str (s : String)
  | tagsObject
deriving DecidableEq

/-- Whether the filter value equals the given document id.  A Mongo
equality filter on a non-string value never matches a string id. -/
def IdFilter.accepts : IdFilter → String → Bool
  | .str s, i => s == i
  | .tagsObject, _ => false

/-- Mongo delete_one with an id filter: removes the first matching
document, if any. -/
def deleteOne (f : IdFilter) : List TagDoc → List TagDoc
  | [] => []
  | d :: ds => if f.accepts d.id then ds else d :: deleteOne f ds

/-- Mongo update_one with filter on id equal to tag: applies the update to
the first matching document, if any. -/
def updateFirst (tag : String) (u : TagDoc → TagDoc) : List TagDoc → List TagDoc
  | [] => []
  | d :: ds => if d.id == tag then u d :: ds else d :: updateFirst tag u ds

/-- Mongo find_one with filter on id equal to tag: the first matching
document, if any. -/
def findTag (col : List TagDoc) (tag : String) : Option TagDoc :=
  col.find? (fun d => d.id == tag)

/-- The reply of the tag show handler. -/
inductive ShowReply where
  | tagText (text : String)
  | nsfwOnly
  | notFound
deriving DecidableEq

/-- The tag show handler (method.py lines 13 to 31): look the tag up, reply
with its text (refusing NSFW tags outside NSFW channels), and in every
branch run update_one incrementing the count field of the first document
whose id is the tag name. -/
def show_tag (col : List TagDoc) (tag : String) (channelNsfw : Bool) :
    ShowReply × List TagDoc :=
  let reply :=
    match findTag col tag with
    | some data =>
        if !data.nsfw then ShowReply.tagText data.text
        else if channelNsfw then ShowReply.tagText data.text
        else ShowReply.nsfwOnly
    | none => ShowReply.notFound
  (reply, updateFirst tag (fun d => { d with count := d.count + 1 }) col)

/-- The reply of the tag creation handler.  When the confirmation view
times out (value None), the source replies through an undefined name msg
(line 43), raising NameError before any insertion. -/
inductive CreateReply where
  | alreadyExists
  | created
  | nameErrorCrash
deriving DecidableEq

/-- The tag creation handler (method.py lines 34 to 59): refuse when a
document with the requested id exists; otherwise ask the NSFW prompt and
insert a fresh document.  promptValue models view.value after waiting. -/
def create_tag (col : List TagDoc) (tag text : String) (author : Nat)
    (promptValue : Option Bool) (now : Nat) : CreateReply × List TagDoc :=
  match findTag col tag with
  | some _ => (CreateReply.alreadyExists, col)
  | none =>
    match promptValue with
    | none => (CreateReply.nameErrorCrash, col)
    | some v =>
        (CreateReply.created, col ++ [⟨tag, text, 0, author, v, now⟩])

/-- The reply of the tag deletion handler. -/
inductive DeleteReply where
  | deleted
  | notOwner
  | notFound
deriving DecidableEq

/-- The tag deletion handler (method.py lines 62 to 71): when the tag
exists and the invoker owns it, run delete_one and reply success.  The
filter passed to delete_one is the module-level tags object, not the tag
name, exactly as in the source. -/
def delete_tag (col : List TagDoc) (tag : String) (author : Nat) :
    DeleteReply × List TagDoc :=
  match findTag col tag with
  | some data =>
      if data.owner == author then
        (DeleteReply.deleted, deleteOne IdFilter.tagsObject col)
      else (DeleteReply.notOwner, col)
  | none => (DeleteReply.notFound, col)

/-- The reply of the tag rename handler. -/
inductive NameEditReply where
  | nameExists
  | renamed
  | notOwner
  | notFound
deriving DecidableEq

/-- The tag rename handler (method.py lines 74 to 87): refuse when a
document with the new id exists, otherwise rename the first document whose
id is the old tag name, provided the invoker owns it. -/
def name_edit (col : List TagDoc) (tag nm : String) (author : Nat) :
    NameEditReply × List TagDoc :=
  match findTag col nm with
  | some _ => (NameEditReply.nameExists, col)
  | none =>
    match findTag col tag with
    | some data =>
        if data.owner == author then
          (NameEditReply.renamed, updateFirst tag (fun d => { d with id := nm }) col)
        else (NameEditReply.notOwner, col)
    | none => (NameEditReply.notFound, col)

/-! ## Base64 encode and decode commands (src/cogs/fun/init lines 118 to 159)

The commands call Python base64.b64encode and base64.b64decode on the
ASCII bytes of the input.  Bytes are modelled as natural numbers below
256; the base64 alphabet and the 3-byte to 4-character coding follow
RFC 4648, which is what the Python library implements. -/

/-- Character value of a base64 alphabet index (0 to 63). -/
def b64chr (i : Nat) : Nat :=
  if i < 26 then 65 + i
  else if i < 52 then 97 + (i - 26)
  else if i < 62 then 48 + (i - 52)
  else if i = 62 then 43
  else 47

/-- Alphabet index of a base64 character value. -/
def b64ord (c : Nat) : Nat :=
  if 65 ≤ c ∧ c ≤ 90 then c - 65
  else if 97 ≤ c ∧ c ≤ 122 then 26 + (c - 97)
  else if 48 ≤ c ∧ c ≤ 57 then 52 + (c - 48)
  else if c = 43 then 62
  else 63

/-- Python base64.b64encode on a byte list: groups of three bytes become
four alphabet characters; a final group of one or two bytes is padded with
one or two pad characters (61, the equals sign). -/
def b64encodeBytes : List Nat → List Nat
  | [] => []
  | [b1] => [b64chr (b1 / 4), b64chr (b1 % 4 * 16), 61, 61]
  | [b1, b2] =>
      [b64chr (b1 / 4), b64chr (b1 % 4 * 16 + b2 / 16), b64chr (b2 % 16 * 4), 61]
  | b1 :: b2 :: b3 :: rest =>
      b64chr (b1 / 4) :: b64chr (b1 % 4 * 16 + b2 / 16) ::
      b64chr (b2 % 16 * 4 + b3 / 64) :: b64chr (b3 % 64) :: b64encodeBytes rest

/-- Python base64.b64decode on well-padded alphabet input: each group of
four characters yields three bytes, or one or two bytes for a final padded
group. -/
def b64decodeBytes : List Nat → List Nat
  | c1 :: c2 :: c3 :: c4 :: rest =>
      if c3 = 61 then [b64ord c1 * 4 + b64ord c2 / 16]
      else if c4 = 61 then
        [b64ord c1 * 4 + b64ord c2 / 16, b64ord c2 % 16 * 16 + b64ord c3 / 4]
      else
        (b64ord c1 * 4 + b64ord c2 / 16) ::
        (b64ord c2 % 16 * 16 + b64ord c3 / 4) ::
        (b64ord c3 % 4 * 64 + b64ord c4) ::
        b64decodeBytes rest
  | _ => []

/-- The encode command body (fun cog lines 140 to 159), projected to the
base64 field of its embed: ascii-encode the input string and base64-encode
the bytes.  str.encode ascii raises for a byte value of 128 or more, so
the result is none there. -/
def encode_command (s : List Nat) : Option (List Nat) :=
  if s.all (fun b => b < 128) then some (b64encodeBytes s) else none

/-- The decode command body (fun cog lines 118 to 136): ascii-encode the
input, base64-decode, and ascii-decode the resulting bytes; either ascii
step raises (none) on a byte value of 128 or more. -/
def decode_command (s : List Nat) : Option (List Nat) :=
  if s.all (fun b => b < 128) then
    let decoded := b64decodeBytes s
    if decoded.all (fun b => b < 128) then some decoded else none
  else none

/-! ## Python str.lower -/

/-- Lowering of one character, as Python str.lower acts on the ASCII
range: an upper case letter gains 32, anything else is unchanged. -/
def lowerChar (c : Char) : Char :=
  if 65 ≤ c.toNat ∧ c.toNat ≤ 90 then Char.ofNat (c.toNat + 32) else c

/-- Python str.lower, applied character by character (the handlers apply
it to chat content and event names). -/
def pyLower (s : String) : String := ⟨s.data.map lowerChar⟩

/-! ## Telephone dial relay (src/cogs/fun/init lines 646 to 777)

The handler reads two documents of the telephone collection (keyed by
guild id), runs a sequence of guard checks, exchanges the handshake
messages, and on pickup relays chat messages between the two channels
until an inactivity timeout, a hangup message, or the duration cutoff.
The observable behaviour is modelled as the list of effects (channel
sends and busy-flag updates) plus the final state of the collection;
the results of the two bot.wait_for calls are inputs (a phase-one wait
result and a trace of relay-loop wait results). -/

/-- A document of the telephone collection, with the fields the dial
handler reads: channel, is_line_busy, blocked.  The pingrole and
memberping fields feed only a message that is sent and at once deleted
inside a try block, so they are not modelled. -/
structure TelRecord where
  channel : Nat
  is_line_busy : Bool
  blocked : List Nat
deriving DecidableEq

/-- The telephone collection: documents keyed by guild id. -/
def findRecord (db : List (Nat × TelRecord)) (gid : Nat) : Option TelRecord :=
  (db.find? (fun p => p.1 == gid)).map Prod.snd

/-- Modelled from the spec: telephone_update is imported from
utilities/database.py, which is not among the sources; the spec describes
the relay as flipping the busy line state, and every call site passes the
field name is_line_busy, so it is modelled as setting that field of the
guild document (Mongo update_one semantics: first matching document). -/
def telephone_update : List (Nat × TelRecord) → Nat → Bool → List (Nat × TelRecord)
  | [], _, _ => []
  | p :: ps, gid, busy =>
      if p.1 = gid then (p.1, { p.2 with is_line_busy := busy }) :: ps
      else p :: telephone_update ps gid busy

/-- The distinct messages the dial handler can send, named after their
source text: the self call refusal, the two missing-record refusals, the
line busy refusal (Line busy!), the two calling failed refusals, the
Calling to and Incoming call handshake messages, the Line Inactive for
more than 60 seconds disconnect notice, the Disconnected message, the
Connected greeting, a relayed chat message, and the Disconnected, call
duration reached its maximum limit cutoff. -/
inductive DialMsg where
  | cantSelfCall
  | noSelfLine
  | noTargetLine
  | lineBusy
  | callingFailedNoChannel
  | callingFailedBlocked
  | calling
  | incomingCall
  | lineInactive
  | disconnected
  | connected
  | relay (authorTag content : String)
  | maxDuration
deriving DecidableEq

/-- An observable effect of the dial handler: a message sent to a channel,
or a telephone_update of the is_line_busy field of a guild. -/
inductive Effect where
  | sendChannel (chan : Nat) (m : DialMsg)
  | updateBusy (guild : Nat) (busy : Bool)
deriving DecidableEq

/-- A chat message as seen by the wait_for checks: its channel, content,
whether the author is a bot, and the author name tag used when relaying. -/
structure ChatMessage where
  channel : Nat
  content : String
  authorIsBot : Bool
  authorTag : String
deriving DecidableEq

/-- Result of the phase-one wait_for (timeout 60): either the 60 second
timeout or a message that passed the pickup or hangup check. -/
inductive Wait1 where
  | timedOut
  | got (m : ChatMessage)
deriving DecidableEq

/-- Result of one relay-loop wait_for (timeout 60): either the timeout or
a message, together with the value of time.time() at the duration check
that follows the relay. -/
inductive LoopEvent where
  | timedOut
  | msg (m : ChatMessage) (t : Nat)
deriving DecidableEq

/-- The phase-one check (source line 699): content lowered is pickup or
hangup, and the message is in the caller channel or the target channel. -/
def dialCheck (callerChan targetChan : Nat) (m : ChatMessage) : Bool :=
  (pyLower m.content == "pickup" || pyLower m.content == "hangup") &&
  (m.channel == callerChan || m.channel == targetChan)

/-- The relay-loop check (source line 735), with the source precedence:
channel equals the target channel, or channel equals the caller channel
and the author is not a bot. -/
def loopCheck (callerChan targetChan : Nat) (m : ChatMessage) : Bool :=
  m.channel == targetChan || (m.channel == callerChan && !m.authorIsBot)

/-- The relay of one chat message (source lines 763 to 771): a message of
the target channel is forwarded to the caller channel, else a message of
the caller channel is forwarded to the target channel. -/
def relayEffects (callerChan targetChan : Nat) (m : ChatMessage) : List Effect :=
  if m.channel == targetChan then
    [Effect.sendChannel callerChan (DialMsg.relay m.authorTag m.content)]
  else if m.channel == callerChan then
    [Effect.sendChannel targetChan (DialMsg.relay m.authorTag m.content)]
  else []

/-- Result of a dial run: the effects in order, the final telephone
collection, and whether the handler returned.  completed is false only
when the relay loop consumed the whole event trace without returning,
that is, when the trace does not describe a full execution. -/
structure DialResult where
  effects : List Effect
  db : List (Nat × TelRecord)
  completed : Bool
deriving DecidableEq

/-- The relay loop after pickup (source lines 733 to 777).  ini is
time.time() at connection plus 120.  Each iteration waits (timeout 60):
on timeout it sends the Line Inactive notice to both channels and resets
both busy flags; on a hangup message it resets both busy flags and sends
Disconnected to both channels; otherwise it relays the message and then,
when ini minus the current time is at most 60, sends the duration cutoff
to both channels, resets both busy flags and returns. -/
def dialLoop (ctxG targetG callerChan targetChan ini : Nat)
    (db : List (Nat × TelRecord)) : List LoopEvent → DialResult
  | [] => ⟨[], db, false⟩
  | LoopEvent.timedOut :: _ =>
      ⟨[Effect.sendChannel targetChan DialMsg.lineInactive,
        Effect.sendChannel callerChan DialMsg.lineInactive,
        Effect.updateBusy ctxG false, Effect.updateBusy targetG false],
       telephone_update (telephone_update db ctxG false) targetG false, true⟩
  | LoopEvent.msg m t :: rest =>
      if pyLower m.content == "hangup" then
        ⟨[Effect.updateBusy ctxG false, Effect.updateBusy targetG false,
          Effect.sendChannel callerChan DialMsg.disconnected,
          Effect.sendChannel targetChan DialMsg.disconnected],
         telephone_update (telephone_update db ctxG false) targetG false, true⟩
      else
        let rel := relayEffects callerChan targetChan m
        if ini - t ≤ 60 then
          ⟨rel ++ [Effect.sendChannel callerChan DialMsg.maxDuration,
                   Effect.sendChannel targetChan DialMsg.maxDuration,
                   Effect.updateBusy ctxG false, Effect.updateBusy targetG false],
           telephone_update (telephone_update db ctxG false) targetG false, true⟩
        else
          let r := dialLoop ctxG targetG callerChan targetChan ini db rest
          ⟨rel ++ r.effects, r.db, r.completed⟩

/-- The dial handler (source lines 646 to 777).  Guard checks in source
order: self call, missing caller record, missing target record, target
line busy, target channel not reachable, blocked either way.  Then the
Calling to and Incoming call messages, the phase-one wait, and on pickup
the Connected messages, both busy flags set true, and the relay loop with
ini set to the connection time plus 120. -/
def dial (db : List (Nat × TelRecord)) (ctxG ctxChan targetG : Nat)
    (chanExists : Nat → Bool) (w1 : Wait1) (tconn : Nat)
    (trace : List LoopEvent) : DialResult :=
  if targetG = ctxG then ⟨[Effect.sendChannel ctxChan DialMsg.cantSelfCall], db, true⟩
  else
    match findRecord db ctxG with
    | none => ⟨[Effect.sendChannel ctxChan DialMsg.noSelfLine], db, true⟩
    | some selfRec =>
      match findRecord db targetG with
      | none => ⟨[Effect.sendChannel ctxChan DialMsg.noTargetLine], db, true⟩
      | some targetRec =>
        if targetRec.is_line_busy then
          ⟨[Effect.sendChannel ctxChan DialMsg.lineBusy], db, true⟩
        else if !chanExists targetRec.channel then
          ⟨[Effect.sendChannel ctxChan DialMsg.callingFailedNoChannel], db, true⟩
        else if selfRec.blocked.contains targetG || targetRec.blocked.contains ctxG then
          ⟨[Effect.sendChannel ctxChan DialMsg.callingFailedBlocked], db, true⟩
        else
          let targetChan := targetRec.channel
          let pre : List Effect :=
            [Effect.sendChannel ctxChan DialMsg.calling,
             Effect.sendChannel targetChan DialMsg.incomingCall]
          match w1 with
          | Wait1.timedOut =>
              ⟨pre ++ [Effect.sendChannel targetChan DialMsg.lineInactive,
                       Effect.sendChannel ctxChan DialMsg.lineInactive,
                       Effect.updateBusy ctxG false, Effect.updateBusy targetG false],
               telephone_update (telephone_update db ctxG false) targetG false, true⟩
          | Wait1.got m =>
              if pyLower m.content == "hangup" then
                ⟨pre ++ [Effect.sendChannel ctxChan DialMsg.disconnected,
                         Effect.sendChannel targetChan DialMsg.disconnected,
                         Effect.updateBusy ctxG false, Effect.updateBusy targetG false],
                 telephone_update (telephone_update db ctxG false) targetG false, true⟩
              else if pyLower m.content == "pickup" then
                let db1 := telephone_update (telephone_update db ctxG true) targetG true
                let r := dialLoop ctxG targetG ctxChan targetChan (tconn + 120) db1 trace
                ⟨pre ++ [Effect.sendChannel ctxChan DialMsg.connected,
                         Effect.sendChannel targetChan DialMsg.connected,
                         Effect.updateBusy ctxG true, Effect.updateBusy targetG true] ++
                   r.effects,
                 r.db, r.completed⟩
              else ⟨pre, db, true⟩

/-! ## The animal fact command (src/cogs/fun/init lines 163 to 197) -/

/-- A reply of the fact command: the fact embed, the API returned a
status message, or the no facts are available message listing the
supported animals. -/
inductive FactReply where
  | factEmbed (animal fact image : String)
  | apiStatus (status : Nat)
  | noFacts
deriving DecidableEq

/-- The fact command body.  The inputs are the animal argument and the
statuses and payloads of the image and fact API responses.  When the
lowered animal is not among the six supported names the body ends with
no reply at all (the source has no else branch for that case); within
the supported branch, the fact embed is sent when the fact request
succeeds and an image link was obtained, and an error message otherwise.
The apiStatus reply carries the status of the fact response, which is
200 in the branch that sends it, exactly as in the source. -/
def animal_fact (animal : String) (imgStatus : Nat) (imgLink : String)
    (factStatus : Nat) (factText : String) : Option FactReply :=
  let lowered := pyLower animal
  if lowered ∈ ["dog", "cat", "panda", "fox", "bird", "koala"] then
    let imageLink : Option String := if imgStatus == 200 then some imgLink else none
    if factStatus == 200 then
      match imageLink with
      | some link => some (FactReply.factEmbed lowered factText link)
      | none => some (FactReply.apiStatus factStatus)
    else some FactReply.noFacts
  else none

/-! ## The multi-event wait helper (src/core/Context.py lines 496 to 553) -/

/-- The name normalization performed by Context.wait_for (lines 401 and
402): when the lowered name has initial letters o, n, underscore, drop the
first three characters of the original name and lower the rest; otherwise
keep the name as given. -/
def normalizeEventName (s : String) : String :=
  if (pyLower s).startsWith "on_" then pyLower (s.drop 3) else s

/-- One wait_for call description produced by multiple_wait_for: the
normalized event name, the check callable, the timeout, and the extra
keyword arguments, with check and kwargs kept abstract. -/
structure WaitForSpec (χ τ κ : Type) where
  eventName : String
  check : Option χ
  timeout : Option τ
  kwargs : κ

/-- The events argument of multiple_wait_for: either a dict from event
names to checks (modelled as its insertion-ordered item list, which is
what list of d.items() yields) or a list of pairs. -/
inductive EventsArg (χ : Type) where
  | dict (d : List (String × χ))
  | list (l : List (String × χ))

/-- The first statement of multiple_wait_for: a dict argument is replaced
by the list of its items. -/
def EventsArg.toList {χ : Type} : EventsArg χ → List (String × χ)
  | .dict d => d
  | .list l => l

/-- The getattr on the asyncio module with default FIRST_COMPLETED
(source line 552): the three documented constants resolve to themselves,
anything else falls back to the default. -/
def resolveReturnWhen (rwhen : String) : String :=
  if rwhen = "FIRST_COMPLETED" ∨ rwhen = "ALL_COMPLETED" ∨ rwhen = "FIRST_EXCEPTION"
  then rwhen else "FIRST_COMPLETED"

/-- The asyncio.wait call made by multiple_wait_for: one wait_for waiter
per event pair (the set comprehension creates one fresh coroutine per
pair, in order), the shared timeout, and the resolved return_when. -/
structure MultipleWaitCall (χ τ κ : Type) where
  waiters : List (WaitForSpec χ τ κ)
  timeout : Option τ
  returnWhen : String

/-- Context.multiple_wait_for (lines 496 to 553), as the description of
the asyncio.wait call it makes: normalize a dict argument to its item
list, build one wait_for waiter per pair with the shared timeout and
kwargs, and resolve return_when through getattr. -/
def multiple_wait_for {χ τ κ : Type} (events : EventsArg χ)
    (returnWhen : String) (timeout : Option τ) (kwargs : κ) :
    MultipleWaitCall χ τ κ :=
  let evs := events.toList
  { waiters := evs.map fun ec => ⟨normalizeEventName ec.1, some ec.2, timeout, kwargs⟩,
    timeout := timeout,
    returnWhen := resolveReturnWhen returnWhen }

/-! ## Helper lemmas -/

/-- A find_one miss means no document of the collection has the id. -/
theorem findTag_eq_none (col : List TagDoc) (tag : String)
    (h : findTag col tag = none) : ∀ d ∈ col, d.id ≠ tag := by
  intro d hd
  have := List.find?_eq_none.1 h d hd
  simpa using this

/-- Ids after a rename update are among the old ids or the new name. -/
theorem mem_updateFirst_setId (tag nm x : String) (col : List TagDoc)
    (hx : x ∈ (updateFirst tag (fun d => { d with id := nm }) col).map TagDoc.id) :
    x ∈ col.map TagDoc.id ∨ x = nm := by
  induction col with
  | nil => simp [updateFirst] at hx
  | cons d ds ih =>
      simp only [updateFirst] at hx
      split at hx
      · simp only [List.map_cons, List.mem_cons] at hx
        rcases hx with h | h
        · exact Or.inr h
        · exact Or.inl (List.mem_cons_of_mem _ h)
      · simp only [List.map_cons, List.mem_cons] at hx
        rcases hx with h | h
        · exact Or.inl (by simp [h])
        · rcases ih h with h2 | h2
          · exact Or.inl (List.mem_cons_of_mem _ h2)
          · exact Or.inr h2

/-- Renaming the first document with the old id to a fresh name keeps the
ids of the collection distinct. -/
theorem updateFirst_setId_nodup (tag nm : String) (col : List TagDoc)
    (hnd : (col.map TagDoc.id).Nodup) (hnm : ∀ d ∈ col, d.id ≠ nm) :
    ((updateFirst tag (fun d => { d with id := nm }) col).map TagDoc.id).Nodup := by
  induction col with
  | nil => simp [updateFirst]
  | cons d ds ih =>
      simp only [List.map_cons, List.nodup_cons] at hnd
      simp only [updateFirst]
      split
      · simp only [List.map_cons, List.nodup_cons]
        refine ⟨?_, hnd.2⟩
        intro hmem
        obtain ⟨a, ha, haid⟩ := List.mem_map.1 hmem
        exact hnm a (List.mem_cons_of_mem _ ha) haid
      · simp only [List.map_cons, List.nodup_cons]
        refine ⟨?_, ih hnd.2 (fun a ha => hnm a (List.mem_cons_of_mem _ ha))⟩
        intro hmem
        rcases mem_updateFirst_setId tag nm d.id ds hmem with h | h
        · exact hnd.1 h
        · exact hnm d (List.mem_cons_self _ _) h

/-- No base64 alphabet character is the pad character 61. -/
theorem b64chr_ne_pad (i : Nat) : b64chr i ≠ 61 := by
  unfold b64chr
  split_ifs <;> omega

/-- Every base64 alphabet character value is below 128. -/
theorem b64chr_lt_128 (i : Nat) : b64chr i < 128 := by
  unfold b64chr
  split_ifs <;> omega

/-- The alphabet index of the character of an index below 64 is itself. -/
theorem b64ord_b64chr : ∀ i : Nat, i < 64 → b64ord (b64chr i) = i := by decide

/-- All bytes of an encoded base64 text are below 128. -/
theorem b64encodeBytes_lt_128 : ∀ s : List Nat, ∀ c ∈ b64encodeBytes s, c < 128
  | [] => by intro c hc; simp [b64encodeBytes] at hc
  | [b1] => by
      intro c hc
      simp only [b64encodeBytes, List.mem_cons, List.not_mem_nil, or_false] at hc
      rcases hc with rfl | rfl | rfl | rfl
      · exact b64chr_lt_128 _
      · exact b64chr_lt_128 _
      · omega
      · omega
  | [b1, b2] => by
      intro c hc
      simp only [b64encodeBytes, List.mem_cons, List.not_mem_nil, or_false] at hc
      rcases hc with rfl | rfl | rfl | rfl
      · exact b64chr_lt_128 _
      · exact b64chr_lt_128 _
      · exact b64chr_lt_128 _
      · omega
  | b1 :: b2 :: b3 :: rest => by
      intro c hc
      simp only [b64encodeBytes, List.mem_cons] at hc
      rcases hc with rfl | rfl | rfl | rfl | h
      · exact b64chr_lt_128 _
      · exact b64chr_lt_128 _
      · exact b64chr_lt_128 _
      · exact b64chr_lt_128 _
      · exact b64encodeBytes_lt_128 rest c h

/-- Decoding inverts encoding on byte lists (all entries below 256). -/
theorem b64decode_b64encode : ∀ s : List Nat, (∀ b ∈ s, b < 256) →
    b64decodeBytes (b64encodeBytes s) = s
  | [], _ => rfl
  | [b1], h => by
      have h1 : b1 < 256 := h b1 (by simp)
      simp only [b64encodeBytes, b64decodeBytes]
      rw [if_pos trivial]
      rw [b64ord_b64chr _ (by omega), b64ord_b64chr _ (by omega)]
      simp only [List.cons.injEq, and_true]
      omega
  | [b1, b2], h => by
      have h1 : b1 < 256 := h b1 (by simp)
      have h2 : b2 < 256 := h b2 (by simp)
      simp only [b64encodeBytes, b64decodeBytes]
      rw [if_neg (b64chr_ne_pad _), if_pos trivial]
      rw [b64ord_b64chr _ (by omega), b64ord_b64chr _ (by omega),
          b64ord_b64chr _ (by omega)]
      simp only [List.cons.injEq, and_true]
      exact ⟨by omega, by omega⟩
  | b1 :: b2 :: b3 :: rest, h => by
      have h1 : b1 < 256 := h b1 (by simp)
      have h2 : b2 < 256 := h b2 (by simp)
      have h3 : b3 < 256 := h b3 (by simp)
      have ih := b64decode_b64encode rest (fun b hb => h b (by simp [hb]))
      simp only [b64encodeBytes, b64decodeBytes]
      rw [if_neg (b64chr_ne_pad _), if_neg (b64chr_ne_pad _)]
      rw [b64ord_b64chr _ (by omega), b64ord_b64chr _ (by omega),
          b64ord_b64chr _ (by omega), b64ord_b64chr _ (by omega)]
      rw [ih]
      simp only [List.cons.injEq, and_true]
      exact ⟨by omega, by omega, by omega⟩

/-- Looking up the guild whose busy flag was just set finds it set. -/
theorem findRecord_telephone_update_self (db : List (Nat × TelRecord)) (g : Nat)
    (b : Bool) (r : TelRecord)
    (h : findRecord (telephone_update db g b) g = some r) :
    r.is_line_busy = b := by
  induction db with
  | nil => simp [telephone_update, findRecord] at h
  | cons p ps ih =>
      by_cases hp : p.1 = g
      · simp [telephone_update, hp, findRecord] at h
        subst h
        rfl
      · have hb : (p.1 == g) = false := by simp [hp]
        simp only [telephone_update, if_neg hp, findRecord, List.find?_cons, hb] at h
        exact ih h

/-- Setting one guild's busy flag leaves lookups of other guilds alone. -/
theorem findRecord_telephone_update_other (db : List (Nat × TelRecord)) (g g2 : Nat)
    (b : Bool) (hne : g2 ≠ g) :
    findRecord (telephone_update db g b) g2 = findRecord db g2 := by
  induction db with
  | nil => rfl
  | cons p ps ih =>
      by_cases hp : p.1 = g
      · have hb1 : (p.1 == g2) = false := by simp [hp, Ne.symm hne]
        have hb2 : (g == g2) = false := by simp [Ne.symm hne]
        simp [telephone_update, hp, findRecord, hb1, hb2]
      · by_cases hq : p.1 = g2
        · simp [telephone_update, hp, hne, findRecord, hq]
        · have hb : (p.1 == g2) = false := by simp [hq]
          simp [telephone_update, hp, findRecord, hb]
          exact ih

/-- Every completed run of the relay loop leaves the collection with both
busy flags set false, whichever branch ended it. -/
theorem dialLoop_completed_db (ctxG targetG callerChan targetChan ini : Nat)
    (db : List (Nat × TelRecord)) (trace : List LoopEvent)
    (h : (dialLoop ctxG targetG callerChan targetChan ini db trace).completed = true) :
    (dialLoop ctxG targetG callerChan targetChan ini db trace).db =
      telephone_update (telephone_update db ctxG false) targetG false := by
  induction trace with
  | nil => simp [dialLoop] at h
  | cons e rest ih =>
      cases e with
      | timedOut => simp [dialLoop]
      | msg m t =>
          by_cases hh : pyLower m.content = "hangup"
          · simp [dialLoop, hh]
          · have hh2 : (pyLower m.content == "hangup") = false := by simp [hh]
            by_cases hd : ini - t ≤ 60
            · simp [dialLoop, hh2, hd]
            · have hd2 : ¬ ini ≤ 60 + t := by omega
              simp only [dialLoop, hh2, Bool.false_eq_true, if_false,
                if_neg hd, if_neg hd2] at h ⊢
              exact ih h

/-! ## Claim theorems -/

/-- Claim C1: when the phase-one wait after the Calling to and Incoming
call messages times out (no pickup and no hangup within 60 seconds), the
dial handler sends the Line Inactive for more than 60 seconds disconnect
notice to both channels, sets is_line_busy false for both the caller
guild and the target guild, and returns without relaying any message. -/
theorem dial_inactive_timeout_disconnects (db : List (Nat × TelRecord))
    (ctxG ctxChan targetG : Nat) (chanExists : Nat → Bool) (tconn : Nat)
    (trace : List LoopEvent) (selfRec targetRec : TelRecord)
    (hne : targetG ≠ ctxG)
    (hself : findRecord db ctxG = some selfRec)
    (htarget : findRecord db targetG = some targetRec)
    (hbusy : targetRec.is_line_busy = false)
    (hchan : chanExists targetRec.channel = true)
    (hblockT : selfRec.blocked.contains targetG = false)
    (hblockC : targetRec.blocked.contains ctxG = false) :
    dial db ctxG ctxChan targetG chanExists Wait1.timedOut tconn trace =
      ⟨[Effect.sendChannel ctxChan DialMsg.calling,
        Effect.sendChannel targetRec.channel DialMsg.incomingCall,
        Effect.sendChannel targetRec.channel DialMsg.lineInactive,
        Effect.sendChannel ctxChan DialMsg.lineInactive,
        Effect.updateBusy ctxG false, Effect.updateBusy targetG false],
       telephone_update (telephone_update db ctxG false) targetG false, true⟩ ∧
    ∀ ch a c, Effect.sendChannel ch (DialMsg.relay a c) ∉
      (dial db ctxG ctxChan targetG chanExists Wait1.timedOut tconn trace).effects := by
  have h1 : dial db ctxG ctxChan targetG chanExists Wait1.timedOut tconn trace =
      ⟨[Effect.sendChannel ctxChan DialMsg.calling,
        Effect.sendChannel targetRec.channel DialMsg.incomingCall,
        Effect.sendChannel targetRec.channel DialMsg.lineInactive,
        Effect.sendChannel ctxChan DialMsg.lineInactive,
        Effect.updateBusy ctxG false, Effect.updateBusy targetG false],
       telephone_update (telephone_update db ctxG false) targetG false, true⟩ := by
    have hbT : targetG ∉ selfRec.blocked := by simpa using hblockT
    have hbC : ctxG ∉ targetRec.blocked := by simpa using hblockC
    simp [dial, hne, hself, htarget, hbusy, hchan, hbT, hbC]
  refine ⟨h1, ?_⟩
  intro ch a c
  rw [h1]
  simp

/-- Claim C1 witness: a concrete two-guild collection, phase-one timeout. -/
theorem dial_inactive_timeout_disconnects_witness :
    dial [(1, ⟨100, false, []⟩), (2, ⟨200, false, []⟩)] 1 10 2 (fun _ => true)
        Wait1.timedOut 0 [] =
      ⟨[Effect.sendChannel 10 DialMsg.calling,
        Effect.sendChannel 200 DialMsg.incomingCall,
        Effect.sendChannel 200 DialMsg.lineInactive,
        Effect.sendChannel 10 DialMsg.lineInactive,
        Effect.updateBusy 1 false, Effect.updateBusy 2 false],
       [(1, ⟨100, false, []⟩), (2, ⟨200, false, []⟩)], true⟩ :=
  (dial_inactive_timeout_disconnects [(1, ⟨100, false, []⟩), (2, ⟨200, false, []⟩)]
    1 10 2 (fun _ => true) 0 [] ⟨100, false, []⟩ ⟨200, false, []⟩
    (by decide) rfl rfl rfl rfl rfl rfl).1

/-- Claim C2: once an iteration of the connected relay loop receives a
non-hangup message and the duration check fires (ini minus the current
time is at most 60), the loop relays that one message, sends the
Disconnected, call duration reached its maximum limit message to the
caller channel and the target channel, sets is_line_busy false for both
guilds, and returns; the events remaining in the trace are never
processed, so no relaying continues past the cutoff. -/
theorem dialLoop_max_duration_cutoff (ctxG targetG callerChan targetChan ini : Nat)
    (db : List (Nat × TelRecord)) (pre rest : List LoopEvent)
    (m : ChatMessage) (t : Nat)
    (hpre : (dialLoop ctxG targetG callerChan targetChan ini db pre).completed = false)
    (hnothang : pyLower m.content ≠ "hangup")
    (hdur : ini - t ≤ 60) :
    dialLoop ctxG targetG callerChan targetChan ini db
        (pre ++ LoopEvent.msg m t :: rest) =
      ⟨(dialLoop ctxG targetG callerChan targetChan ini db pre).effects ++
         (relayEffects callerChan targetChan m ++
          [Effect.sendChannel callerChan DialMsg.maxDuration,
           Effect.sendChannel targetChan DialMsg.maxDuration,
           Effect.updateBusy ctxG false, Effect.updateBusy targetG false]),
       telephone_update (telephone_update db ctxG false) targetG false, true⟩ := by
  induction pre with
  | nil =>
      have hh : (pyLower m.content == "hangup") = false := by simp [hnothang]
      simp [dialLoop, hh, hdur]
  | cons e pre ih =>
      cases e with
      | timedOut => simp [dialLoop] at hpre
      | msg m2 t2 =>
          by_cases hh : pyLower m2.content = "hangup"
          · simp [dialLoop, hh] at hpre
          · have hh2 : (pyLower m2.content == "hangup") = false := by simp [hh]
            by_cases hd : ini - t2 ≤ 60
            · simp [dialLoop, hh2, hd] at hpre
            · have hd2 : ¬ ini ≤ 60 + t2 := by omega
              have hpre2 : (dialLoop ctxG targetG callerChan targetChan ini db
                  pre).completed = false := by
                simpa [dialLoop, hh2, hd, hd2] using hpre
              simp [dialLoop, hh2, hd, hd2, List.append_eq, ih hpre2,
                List.append_assoc]

/-- Claim C2 witness: a connected line, one late message, cutoff fires. -/
theorem dialLoop_max_duration_cutoff_witness :
    dialLoop 1 2 10 200 120 [(1, ⟨100, true, []⟩), (2, ⟨200, true, []⟩)]
        [LoopEvent.msg ⟨200, "hey", false, "u#1"⟩ 100] =
      ⟨[Effect.sendChannel 10 (DialMsg.relay "u#1" "hey"),
        Effect.sendChannel 10 DialMsg.maxDuration,
        Effect.sendChannel 200 DialMsg.maxDuration,
        Effect.updateBusy 1 false, Effect.updateBusy 2 false],
       [(1, ⟨100, false, []⟩), (2, ⟨200, false, []⟩)], true⟩ :=
  (dialLoop_max_duration_cutoff 1 2 10 200 120
    [(1, ⟨100, true, []⟩), (2, ⟨200, true, []⟩)] [] []
    ⟨200, "hey", false, "u#1"⟩ 100 rfl (by decide) (by decide)).trans (by decide)

/-- Claim C3 (amended with: the target guild differs from the caller
guild): when both telephone records exist and the target record is busy,
the dial handler replies Line busy and returns, sending nothing to the
target channel and leaving the collection unchanged. -/
theorem dial_line_busy_rejects (db : List (Nat × TelRecord))
    (ctxG ctxChan targetG : Nat) (chanExists : Nat → Bool)
    (w1 : Wait1) (tconn : Nat) (trace : List LoopEvent)
    (selfRec targetRec : TelRecord)
    (hne : targetG ≠ ctxG)
    (hself : findRecord db ctxG = some selfRec)
    (htarget : findRecord db targetG = some targetRec)
    (hbusy : targetRec.is_line_busy = true) :
    dial db ctxG ctxChan targetG chanExists w1 tconn trace =
      ⟨[Effect.sendChannel ctxChan DialMsg.lineBusy], db, true⟩ := by
  simp [dial, hne, hself, htarget, hbusy]

/-- Claim C3 witness: distinct guilds, target busy, Line busy reply. -/
theorem dial_line_busy_rejects_witness :
    dial [(1, ⟨100, false, []⟩), (2, ⟨200, true, []⟩)] 1 10 2 (fun _ => true)
        Wait1.timedOut 0 [] =
      ⟨[Effect.sendChannel 10 DialMsg.lineBusy],
       [(1, ⟨100, false, []⟩), (2, ⟨200, true, []⟩)], true⟩ :=
  dial_line_busy_rejects [(1, ⟨100, false, []⟩), (2, ⟨200, true, []⟩)] 1 10 2
    (fun _ => true) Wait1.timedOut 0 [] ⟨100, false, []⟩ ⟨200, true, []⟩
    (by decide) rfl rfl rfl

/-- Claim C3 counterexample: dialing the own guild whose record exists and
is busy satisfies the claim's hypothesis (both records exist and the
target record is busy), yet the handler replies with the self call
refusal, not Line busy. -/
theorem dial_busy_self_call_counterexample :
    dial [(1, ⟨100, true, []⟩)] 1 10 1 (fun _ => true) Wait1.timedOut 0 [] =
      ⟨[Effect.sendChannel 10 DialMsg.cantSelfCall], [(1, ⟨100, true, []⟩)], true⟩ ∧
    Effect.sendChannel 10 DialMsg.lineBusy ∉
      (dial [(1, ⟨100, true, []⟩)] 1 10 1 (fun _ => true) Wait1.timedOut 0 []).effects :=
  ⟨rfl, by decide⟩

/-- Claim C4 (code bug): with a single tag named hello owned by the
invoker, the deletion handler replies tag deleted successfully, yet the
delete_one filter compares ids against the module-level tags object (a
slip for the tag name), matches nothing, and the document survives. -/
theorem delete_tag_deletes_nothing :
    delete_tag [⟨"hello", "world", 0, 1, false, 0⟩] "hello" 1 =
      (DeleteReply.deleted, [⟨"hello", "world", 0, 1, false, 0⟩]) := rfl

/-- Claim C5 (amended with: a reply is only guaranteed for the six
supported animals; an unsupported animal gets no reply at all): for a
supported animal the fact command always sends some reply, the fact
embed exactly when the fact request and the image request both return
status 200, and an error message otherwise. -/
theorem animal_fact_reply_behaviour (animal : String) (imgStatus factStatus : Nat)
    (imgLink factText : String) :
    (pyLower animal ∈ ["dog", "cat", "panda", "fox", "bird", "koala"] →
      (animal_fact animal imgStatus imgLink factStatus factText).isSome = true ∧
      ((∃ a f i, animal_fact animal imgStatus imgLink factStatus factText =
          some (FactReply.factEmbed a f i)) ↔ (factStatus = 200 ∧ imgStatus = 200))) ∧
    (pyLower animal ∉ ["dog", "cat", "panda", "fox", "bird", "koala"] →
      animal_fact animal imgStatus imgLink factStatus factText = none) := by
  constructor
  · intro hmem
    by_cases hf : factStatus = 200
    · by_cases hi : imgStatus = 200
      · simp [animal_fact, hmem, hf, hi]
      · have hib : (imgStatus == 200) = false := by simp [hi]
        simp [animal_fact, hmem, hf, hi, hib]
    · have hfb : (factStatus == 200) = false := by simp [hf]
      simp [animal_fact, hmem, hf, hfb]
  · intro hmem
    simp [animal_fact, hmem]

/-- Claim C5 witness: a supported animal always gets some reply. -/
theorem animal_fact_reply_behaviour_witness :
    (animal_fact "Dog" 200 "link" 200 "text").isSome = true :=
  ((animal_fact_reply_behaviour "Dog" 200 200 "link" "text").1 (by decide)).1

/-- Claim C5 counterexample: an unsupported animal name makes the handler
fall off the end of the function, sending no reply of any kind, where the
claim promises an error message. -/
theorem animal_fact_unsupported_counterexample :
    animal_fact "elephant" 200 "link" 200 "text" = none := by decide

/-- Claim C6: the tag show handler changes at most the count field of the
documents: the id, text, owner, nsfw and created_at fields of every
document are unchanged, in all branches (tag shown, NSFW refused, tag
not found). -/
theorem show_tag_frame (col : List TagDoc) (tag : String) (channelNsfw : Bool) :
    List.Forall₂
      (fun d d2 => d2.id = d.id ∧ d2.text = d.text ∧ d2.owner = d.owner ∧
        d2.nsfw = d.nsfw ∧ d2.created_at = d.created_at)
      col (show_tag col tag channelNsfw).2 := by
  show List.Forall₂ _ col (updateFirst tag _ col)
  induction col with
  | nil => exact List.Forall₂.nil
  | cons d ds ih =>
      simp only [updateFirst]
      split
      · exact List.Forall₂.cons ⟨rfl, rfl, rfl, rfl, rfl⟩
          (List.forall₂_same.2 fun x _ => ⟨rfl, rfl, rfl, rfl, rfl⟩)
      · exact List.Forall₂.cons ⟨rfl, rfl, rfl, rfl, rfl⟩ ih

/-- Claim C7: multiple_wait_for treats a dict argument exactly as the
list of its items: the asyncio.wait call it performs has the same
waiters, the same timeout and the same resolved return_when. -/
theorem multiple_wait_for_dict_items_eq {χ τ κ : Type} (d : List (String × χ))
    (hkeys : (d.map Prod.fst).Nodup) (returnWhen : String)
    (timeout : Option τ) (kwargs : κ) :
    multiple_wait_for (EventsArg.dict d) returnWhen timeout kwargs =
      multiple_wait_for (EventsArg.list d) returnWhen timeout kwargs := rfl

/-- Claim C7 witness: a concrete two-event dict. -/
theorem multiple_wait_for_dict_items_eq_witness :
    multiple_wait_for (EventsArg.dict [("on_message", 1), ("reaction", 2)])
        "ALL_COMPLETED" (some 60) () =
      multiple_wait_for (EventsArg.list [("on_message", 1), ("reaction", 2)])
        "ALL_COMPLETED" (some 60) () :=
  multiple_wait_for_dict_items_eq [("on_message", 1), ("reaction", 2)] (by decide)
    "ALL_COMPLETED" (some 60) ()

/-- Claim C8: whenever a dial run that connected through pickup
terminates (inactivity timeout, hangup, or duration cutoff), the final
collection has is_line_busy false for the caller guild and for the
target guild. -/
theorem dial_terminates_line_not_busy (db : List (Nat × TelRecord))
    (ctxG ctxChan targetG : Nat) (chanExists : Nat → Bool) (tconn : Nat)
    (trace : List LoopEvent) (selfRec targetRec : TelRecord) (pm : ChatMessage)
    (hne : targetG ≠ ctxG)
    (hself : findRecord db ctxG = some selfRec)
    (htarget : findRecord db targetG = some targetRec)
    (hbusy : targetRec.is_line_busy = false)
    (hchan : chanExists targetRec.channel = true)
    (hblockT : selfRec.blocked.contains targetG = false)
    (hblockC : targetRec.blocked.contains ctxG = false)
    (hpickup : pyLower pm.content = "pickup")
    (hdone : (dial db ctxG ctxChan targetG chanExists (Wait1.got pm) tconn
        trace).completed = true) :
    (∀ r, findRecord (dial db ctxG ctxChan targetG chanExists (Wait1.got pm) tconn
        trace).db ctxG = some r → r.is_line_busy = false) ∧
    (∀ r, findRecord (dial db ctxG ctxChan targetG chanExists (Wait1.got pm) tconn
        trace).db targetG = some r → r.is_line_busy = false) := by
  have hpk : (pyLower pm.content == "pickup") = true := by simp [hpickup]
  have hhg : (pyLower pm.content == "hangup") = false := by simp [hpickup]
  have hbT : targetG ∉ selfRec.blocked := by simpa using hblockT
  have hbC : ctxG ∉ targetRec.blocked := by simpa using hblockC
  have hredc : (dial db ctxG ctxChan targetG chanExists (Wait1.got pm) tconn
      trace).completed =
      (dialLoop ctxG targetG ctxChan targetRec.channel (tconn + 120)
        (telephone_update (telephone_update db ctxG true) targetG true)
        trace).completed := by
    simp [dial, hne, hself, htarget, hbusy, hchan, hbT, hbC, hpk, hhg]
  have hred : (dial db ctxG ctxChan targetG chanExists (Wait1.got pm) tconn
      trace).db =
      (dialLoop ctxG targetG ctxChan targetRec.channel (tconn + 120)
        (telephone_update (telephone_update db ctxG true) targetG true)
        trace).db := by
    simp [dial, hne, hself, htarget, hbusy, hchan, hbT, hbC, hpk, hhg]
  rw [hredc] at hdone
  have hdb := dialLoop_completed_db ctxG targetG ctxChan targetRec.channel
    (tconn + 120) (telephone_update (telephone_update db ctxG true) targetG true)
    trace hdone
  rw [hred, hdb]
  constructor
  · intro r hr
    rw [findRecord_telephone_update_other _ targetG ctxG false (Ne.symm hne)] at hr
    exact findRecord_telephone_update_self _ _ _ _ hr
  · intro r hr
    exact findRecord_telephone_update_self _ _ _ _ hr

/-- Claim C8 witness: a pickup followed by the inactivity timeout leaves
the target guild's record not busy. -/
theorem dial_terminates_line_not_busy_witness :
    findRecord (dial [(1, ⟨100, false, []⟩), (2, ⟨200, false, []⟩)] 1 10 2
        (fun _ => true) (Wait1.got ⟨10, "pickup", false, "u#1"⟩) 0
        [LoopEvent.timedOut]).db 2 = some ⟨200, false, []⟩ ∧
    TelRecord.is_line_busy ⟨200, false, []⟩ = false :=
  ⟨rfl,
    (dial_terminates_line_not_busy [(1, ⟨100, false, []⟩), (2, ⟨200, false, []⟩)]
      1 10 2 (fun _ => true) 0 [LoopEvent.timedOut] ⟨100, false, []⟩
      ⟨200, false, []⟩ ⟨10, "pickup", false, "u#1"⟩ (by decide) rfl rfl rfl rfl
      rfl rfl (by decide) rfl).2 ⟨200, false, []⟩ rfl⟩

/-- Claim C9: tag ids stay unique: creation refuses when the id exists
and inserts only otherwise; rename refuses when the new id exists; both
operations preserve distinctness of the ids of the collection. -/
theorem tag_ops_preserve_unique_ids
    (col : List TagDoc) (tag text nm : String) (author : Nat)
    (promptValue : Option Bool) (now : Nat)
    (hnd : (col.map TagDoc.id).Nodup) :
    ((∃ d ∈ col, d.id = tag) →
      create_tag col tag text author promptValue now =
        (CreateReply.alreadyExists, col)) ∧
    (findTag col tag = none → ∀ v, promptValue = some v →
      create_tag col tag text author promptValue now =
        (CreateReply.created, col ++ [⟨tag, text, 0, author, v, now⟩])) ∧
    ((∃ d ∈ col, d.id = nm) →
      name_edit col tag nm author = (NameEditReply.nameExists, col)) ∧
    ((create_tag col tag text author promptValue now).2.map TagDoc.id).Nodup ∧
    ((name_edit col tag nm author).2.map TagDoc.id).Nodup := by
  refine ⟨?_, ?_, ?_, ?_, ?_⟩
  · rintro ⟨d, hd, hid⟩
    have hex : ∃ x ∈ col, (fun d2 => d2.id == tag) x = true := ⟨d, hd, by simp [hid]⟩
    rcases Option.isSome_iff_exists.1 (List.find?_isSome.2 hex) with ⟨d2, hd2⟩
    simp [create_tag, findTag, hd2]
  · intro hmiss v hv
    simp [create_tag, hmiss, hv]
  · rintro ⟨d, hd, hid⟩
    have hex : ∃ x ∈ col, (fun d2 => d2.id == nm) x = true := ⟨d, hd, by simp [hid]⟩
    rcases Option.isSome_iff_exists.1 (List.find?_isSome.2 hex) with ⟨d2, hd2⟩
    simp [name_edit, findTag, hd2]
  · rcases hf : findTag col tag with _ | data
    · rcases promptValue with _ | v
      · simpa [create_tag, hf] using hnd
      · have hnotin : tag ∉ col.map TagDoc.id := by
          intro hmem
          obtain ⟨d, hd, hdid⟩ := List.mem_map.1 hmem
          exact findTag_eq_none col tag hf d hd hdid
        simp [create_tag, hf, List.nodup_append, hnd, hnotin]
    · simpa [create_tag, hf] using hnd
  · rcases hf : findTag col nm with _ | data
    · rcases hg : findTag col tag with _ | data
      · simpa [name_edit, hf, hg] using hnd
      · by_cases how : data.owner = author
        · have hown : (data.owner == author) = true := by simp [how]
          have hfresh : ∀ d ∈ col, d.id ≠ nm := findTag_eq_none col nm hf
          simp only [name_edit, hf, hg, hown, if_true]
          exact updateFirst_setId_nodup tag nm col hnd hfresh
        · have hown : (data.owner == author) = false := by simp [how]
          simpa [name_edit, hf, hg, hown] using hnd
    · simpa [name_edit, hf] using hnd

/-- Claim C9 witness: renaming the only tag keeps the ids distinct. -/
theorem tag_ops_preserve_unique_ids_witness :
    ((name_edit [⟨"a", "t", 0, 1, false, 0⟩] "a" "b" 1).2.map TagDoc.id).Nodup :=
  (tag_ops_preserve_unique_ids [⟨"a", "t", 0, 1, false, 0⟩] "a" "t" "b" 1
    (some false) 0 (by decide)).2.2.2.2

/-- Claim C10: the base64 encode and decode commands are mutually inverse
on ASCII strings: decoding the base64 text produced by the encode command
yields the original string. -/
theorem encode_decode_roundtrip (s : List Nat) (h : ∀ b ∈ s, b < 128) :
    encode_command s = some (b64encodeBytes s) ∧
    decode_command (b64encodeBytes s) = some s := by
  have hall : s.all (fun b => b < 128) = true := by
    rw [List.all_eq_true]
    intro b hb
    simpa using h b hb
  have henc : encode_command s = some (b64encodeBytes s) := by
    simp [encode_command, hall]
  refine ⟨henc, ?_⟩
  have hall2 : (b64encodeBytes s).all (fun b => b < 128) = true := by
    rw [List.all_eq_true]
    intro c hc
    simpa using b64encodeBytes_lt_128 s c hc
  have hdec := b64decode_b64encode s (fun b hb => by have := h b hb; omega)
  simp [decode_command, hall2, hdec, hall]

/-- Claim C10 witness: the two-byte ASCII string hi. -/
theorem encode_decode_roundtrip_witness :
    encode_command [104, 105] = some (b64encodeBytes [104, 105]) ∧
    decode_command (b64encodeBytes [104, 105]) = some [104, 105] :=
  encode_decode_roundtrip [104, 105] (by decide)

end Parrot
